import Mathlib

/-!
Shallow embedding of the service-registry layer of sawakaga/ultimate-backend:
the class ConsulServiceRegistry
(packages/consul/src/lib/service-registry/consul-service-registry.ts) and the
provider wiring utility getSharedProviderUtils
(packages/cloud/src/lib/utils/provider.util.ts).

The embedding keeps the observable effects of each method explicit: backend
calls, scheduler enrollments, watch creations and terminations, and store
writes are recorded as events, and the mutable fields of the class are carried
as explicit state.
-/

namespace UltimateBackend

/-! ## Registration retry model: register and internalRegister -/

/-- How the promise returned by register() settles (first resolve or reject
wins; later calls on an already settled promise are ignored). -/
inductive Settle
  | resolved
  | rejected
deriving DecidableEq

/-- Observable events of one registration attempt: the backend
agent.service.register call together with its success, and one
TtlScheduler.add enrollment of the instance id. -/
inductive RegEv
  | backendRegister (ok : Bool)
  | schedulerAdd
deriving DecidableEq

/-- Counters carried across register attempts: how many backend register
calls were issued, and how many TtlScheduler.add enrollments happened. -/
structure RegSt where
  calls : Nat
  adds : Nat
deriving DecidableEq

def initRegSt : RegSt := { calls := 0, adds := 0 }

/-- The fields of ConsulServiceRegistry that register() and
internalRegister read: options.discovery.failFast, options.heartbeat.enabled,
whether this.ttlScheduler was created (init creates it exactly when
heartbeat.enabled), and whether the generated service carries a ttl check. -/
structure RegCfg where
  failFast : Bool
  heartbeatEnabled : Bool
  schedulerPresent : Bool
  checkTtl : Bool
deriving DecidableEq

/-- ConsulServiceRegistry internalRegister (lines 100 to 117): issue the
backend agent.service.register call; only when it returns successfully, and
heartbeat is enabled, the ttl scheduler exists and the generated service has a
ttl check, call TtlScheduler.add for the instance id. A failing backend call
throws past the enrollment. The backend is a function from the attempt index
(number of prior calls) to success. Returns the new counters, whether the
attempt succeeded, and the events of the attempt in order. -/
def internalRegister (cfg : RegCfg) (b : Nat → Bool) (s : RegSt) :
    RegSt × Bool × List RegEv :=
  let ok := b s.calls
  let s1 : RegSt := { s with calls := s.calls + 1 }
  if ok then
    if cfg.heartbeatEnabled && cfg.schedulerPresent && cfg.checkTtl then
      ({ s1 with adds := s1.adds + 1 }, true,
        [RegEv.backendRegister true, RegEv.schedulerAdd])
    else
      (s1, true, [RegEv.backendRegister true])
  else
    (s1, false, [RegEv.backendRegister false])

/-- A promise settles with the first resolve or reject; later settlements are
ignored. -/
def settleFirst (settled : Option Settle) (x : Settle) : Option Settle :=
  match settled with
  | none => some x
  | some y => some y

/-- ConsulServiceRegistry register (lines 177 to 198), the body of
operation.attempt of the npm retry package. On success the promise resolves
and no retry is scheduled. On failure: if discovery.failFast the promise is
rejected, but the code then still falls through to operation.retry(e) (there
is no return after the reject); operation.retry schedules another attempt
while retries remain and returns false once they are exhausted, whereupon the
final reject fires. retriesLeft is the number of retries the policy still
allows. -/
def registerLoop (cfg : RegCfg) (b : Nat → Bool) :
    Nat → RegSt → Option Settle → RegSt × Option Settle × List RegEv
  | 0, s, settled =>
    match internalRegister cfg b s with
    | (s1, true, evs) => (s1, settleFirst settled Settle.resolved, evs)
    | (s1, false, evs) =>
      (s1,
        settleFirst
          (if cfg.failFast then settleFirst settled Settle.rejected else settled)
          Settle.rejected,
        evs)
  | (r + 1), s, settled =>
    match internalRegister cfg b s with
    | (s1, true, evs) => (s1, settleFirst settled Settle.resolved, evs)
    | (s1, false, evs) =>
      let rec2 := registerLoop cfg b r s1
        (if cfg.failFast then settleFirst settled Settle.rejected else settled)
      (rec2.1, rec2.2.1, evs ++ rec2.2.2)

/-- retry.operation() is called with no options, so the default policy of the
retry npm package applies: 10 retries, hence at most 11 attempts. -/
def defaultRetries : Nat := 10

/-- ConsulServiceRegistry register: run the attempt loop with the default
retry policy, starting unsettled. Returns the final counters, how the promise
settled, and the full event trace. -/
def register (cfg : RegCfg) (b : Nat → Bool) :
    RegSt × Option Settle × List RegEv :=
  registerLoop cfg b defaultRetries initRegSt none

/-! ## Options, init and the module init hook -/

/-- Heartbeat options; only the enabled flag is read by the registry class. -/
structure HeartbeatOptions where
  enabled : Bool
deriving DecidableEq

/-- Consul discovery options; only failFast is read by the registry class. -/
structure ConsulDiscoveryOptions where
  failFast : Bool
deriving DecidableEq

/-- The SERVICE_REGISTRY_CONFIG options injected into ConsulServiceRegistry.
heartbeat and discovery may each be null or undefined, modelled as none. -/
structure ConsulRegistryOptions where
  heartbeat : Option HeartbeatOptions
  discovery : Option ConsulDiscoveryOptions
deriving DecidableEq

/-- Modelled from the spec: the ttl check descriptor of the built registration
is present exactly when heartbeat is enabled (the spec data model says the
healthCheck descriptor is present only if heartbeat is enabled; it is built by
ConsulRegistrationBuilder, which is outside src). -/
def checkTtlPresent (hb : HeartbeatOptions) : Bool := hb.enabled

def heartbeatRequiredMsg : String := "HeartbeatOptions is required"

def discoveryRequiredMsg : String := "ConsulDiscoveryOptions is required."

/-- ConsulServiceRegistry init (lines 49 to 79): throw when
options.heartbeat is null or undefined, then when options.discovery is null or
undefined; otherwise build the registration, create the TtlScheduler exactly
when heartbeat.enabled, and start watchAll. On success the result carries the
configuration read by register. -/
def init (o : ConsulRegistryOptions) : Except String RegCfg :=
  match o.heartbeat with
  | none => Except.error heartbeatRequiredMsg
  | some hb =>
    match o.discovery with
    | none => Except.error discoveryRequiredMsg
    | some d =>
      Except.ok
        { failFast := d.failFast, heartbeatEnabled := hb.enabled,
          schedulerPresent := hb.enabled, checkTtl := checkTtlPresent hb }

/-- Side effects of a successful init, in order: building the registration,
creating the scheduler (only when heartbeat is enabled), starting the catalog
watch. -/
inductive InitEvent
  | buildRegistration
  | createScheduler
  | watchAllStart
deriving DecidableEq

/-- The side effects init performs: none on the error paths (both null checks
precede the registration build and watchAll), the build, optional scheduler
creation and watch start on success. -/
def initEvents (o : ConsulRegistryOptions) : List InitEvent :=
  match init o with
  | Except.error _ => []
  | Except.ok cfg =>
    [InitEvent.buildRegistration] ++
      (if cfg.heartbeatEnabled then [InitEvent.createScheduler] else []) ++
      [InitEvent.watchAllStart]

/-- Outcome of the onModuleInit hook: escaped is the error the hook
propagates to the runtime (aborting startup), logged is the error it caught
and logged instead, regOutcome is how the register promise settled (none when
register was never reached), regCalls the number of backend register calls. -/
structure HookResult where
  escaped : Option String
  logged : Option String
  regOutcome : Option Settle
  regCalls : Nat
deriving DecidableEq

def registrationFailedMsg : String := "registration error"

/-- ConsulServiceRegistry onModuleInit (lines 263 to 270): await init then
register inside one try block; any error is caught and logged, never
rethrown. -/
def onModuleInit (o : ConsulRegistryOptions) (b : Nat → Bool) : HookResult :=
  match init o with
  | Except.error e =>
    { escaped := none, logged := some e, regOutcome := none, regCalls := 0 }
  | Except.ok cfg =>
    if (register cfg b).2.1 = some Settle.rejected then
      { escaped := none, logged := some registrationFailedMsg,
        regOutcome := (register cfg b).2.1, regCalls := (register cfg b).1.calls }
    else
      { escaped := none, logged := none,
        regOutcome := (register cfg b).2.1, regCalls := (register cfg b).1.calls }

/-! ## Watch engine: watch, buildServiceStore, watchAll, shutdown -/

/-- Ambient facts the watch and shutdown methods read: whether
this.client.consul is set, and whether this.ttlScheduler exists. -/
structure Ctx where
  consulPresent : Bool
  schedulerPresent : Bool
deriving DecidableEq

/-- The mutable watch state of ConsulServiceRegistry. The field
this.watchers is declared as Map of string to Watch, but the code indexes it
with bracket notation; in JavaScript bracket indexing on a Map object reads
and writes ordinary object properties, not Map entries, so the two storage
channels are modelled separately: watchersEntries holds Map entries (what
Map.prototype.forEach iterates), watchersProps holds bracket-notation
properties. watchMeta records every created watch id with the service name it
serves, ended the ids on which end() was called, catalogWatch the tier-1
watcher, store the names with a store entry, nextId the next fresh watch
handle. -/
structure Engine where
  watchersEntries : List (String × Nat)
  watchersProps : List (String × Nat)
  watchMeta : List (Nat × String)
  ended : List Nat
  catalogWatch : Option Nat
  store : List String
  nextId : Nat
deriving DecidableEq

def engine0 : Engine :=
  { watchersEntries := [], watchersProps := [], watchMeta := [], ended := [],
    catalogWatch := none, store := [], nextId := 0 }

/-- Observable events of the watch engine and the shutdown path. -/
inductive Ev
  | watchEnd (id : Nat)
  | storeSet (name : String)
  | watchCreate (name : String) (id : Nat)
  | schedRemove
  | backendDeregister
deriving DecidableEq

def isWatchEnd (ev : Ev) : Bool :=
  match ev with
  | Ev.watchEnd _ => true
  | _ => false

/-- Property lookup on the bracket-notation channel of the watchers map. -/
def findProp (name : String) : List (String × Nat) → Option Nat
  | [] => none
  | p :: rest => if p.1 = name then some p.2 else findProp name rest

/-- Property assignment on the bracket-notation channel of the watchers map. -/
def setProp (name : String) (v : Nat) : List (String × Nat) → List (String × Nat)
  | [] => [(name, v)]
  | p :: rest => if p.1 = name then (name, v) :: rest else p :: setProp name v rest

/-- serviceStore.setServices for one name; the claims only concern which
names are written, so the store is abstracted to the set of names holding an
entry. -/
def setStore (name : String) (e : Engine) : Engine :=
  if name ∈ e.store then e else { e with store := e.store ++ [name] }

/-- ConsulServiceRegistry watch (lines 216 to 242): return early when
this.client.consul is unset; end the watcher found under the bracket-notation
property for serviceName, if any; then create a fresh watcher and store it
under the same bracket-notation property. -/
def watch (ctx : Ctx) (serviceName : String) (e : Engine) : Engine × List Ev :=
  if ctx.consulPresent then
    let endPart : Engine × List Ev :=
      match findProp serviceName e.watchersProps with
      | some id => ({ e with ended := e.ended ++ [id] }, [Ev.watchEnd id])
      | none => (e, [])
    let e1 := endPart.1
    let id := e1.nextId
    let e2 : Engine :=
      { e1 with
        watchersProps := setProp serviceName id e1.watchersProps,
        watchMeta := e1.watchMeta ++ [(id, serviceName)],
        nextId := id + 1 }
    (e2, endPart.2 ++ [Ev.watchCreate serviceName id])
  else
    (e, [])

/-- The per-service body of buildServiceStore: query health.service, write the
store entry for the name, then call watch for it. Promise.all over the
services is modelled as left-to-right sequential processing; the per-name
effects do not depend on the interleaving since names are distinct keys. -/
def buildLoop (ctx : Ctx) : List String → Engine → Engine × List Ev
  | [], e => (e, [])
  | s :: rest, e =>
    let e1 := setStore s e
    let w := watch ctx s e1
    let r := buildLoop ctx rest w.1
    (r.1, Ev.storeSet s :: (w.2 ++ r.2))

/-- ConsulServiceRegistry buildServiceStore (lines 200 to 214):
this.watchers.forEach ends every watcher stored as a Map entry
(Map.prototype.forEach sees only entries, not bracket-notation properties);
this.watchers is then replaced by a fresh Map, dropping both channels; then
each service gets a store write and a new watch. -/
def buildServiceStore (ctx : Ctx) (services : List String) (e : Engine) :
    Engine × List Ev :=
  let endEvs := e.watchersEntries.map (fun p => Ev.watchEnd p.2)
  let e0 : Engine :=
    { e with
      ended := e.ended ++ e.watchersEntries.map (fun p => p.2),
      watchersEntries := [], watchersProps := [] }
  let r := buildLoop ctx services e0
  (r.1, endEvs ++ r.2)

def consulName : String := "consul"

/-- The change handler registered by watchAll on the catalog watcher
(lines 257 to 260): take the keys of the change payload, drop the name
consul, and rebuild the service store for the remaining names. -/
def watchAllChange (ctx : Ctx) (keys : List String) (e : Engine) :
    Engine × List Ev :=
  buildServiceStore ctx (keys.filter (fun k => k != consulName)) e

/-- ConsulServiceRegistry watchAll (lines 244 to 261): return early when
this.client.consul is unset, otherwise create the tier-1 catalog watcher. -/
def watchAll (ctx : Ctx) (e : Engine) : Engine :=
  if ctx.consulPresent then
    { e with catalogWatch := some e.nextId, nextId := e.nextId + 1 }
  else
    e

/-- The ids of watches created for the given service name and never ended. -/
def activeFor (name : String) (e : Engine) : List Nat :=
  ((e.watchMeta.filter (fun p => p.2 = name)).map (fun p => p.1)).filter
    (fun i => !(e.ended.contains i))

/-- ConsulServiceRegistry deregister (lines 119 to 138): remove the instance
from the ttl scheduler when one exists, then issue the backend deregister
call; any error is caught and logged. No watcher is touched. -/
def deregister (ctx : Ctx) (e : Engine) : Engine × List Ev :=
  (e, (if ctx.schedulerPresent then [Ev.schedRemove] else []) ++
    [Ev.backendDeregister])

/-- ConsulServiceRegistry onModuleDestroy (lines 272 to 274): await
deregister, nothing else. -/
def onModuleDestroy (ctx : Ctx) (e : Engine) : Engine × List Ev :=
  deregister ctx e

/-- ConsulServiceRegistry close (lines 140 to 142): the body is empty. -/
def close (e : Engine) : Engine := e

/-- The service names written to the store in a trace, in order. -/
def storeSetNames (evs : List Ev) : List String :=
  evs.filterMap (fun ev =>
    match ev with
    | Ev.storeSet n => some n
    | _ => none)

/-- The service names for which a watch was created in a trace, in order. -/
def watchCreateNames (evs : List Ev) : List String :=
  evs.filterMap (fun ev =>
    match ev with
    | Ev.watchCreate n _ => some n
    | _ => none)

/-! ## Status model: setStatus and getStatus -/

/-- One entry of the health.checks answer, keeping the two fields getStatus
reads: ServiceID and Name. -/
structure HealthCheck where
  serviceID : String
  checkName : String
deriving DecidableEq

def maintenanceName : String := "Service Maintenance Mode"

def outOfServiceStatus : String := "OUT_OF_SERVICE"

def upStatus : String := "UP"

/-- The agent-side state getStatus observes: whether maintenance mode is
enabled for this instance, plus whatever other checks the agent reports for
the service. -/
structure AgentState where
  maintenanceOn : Bool
  otherChecks : List HealthCheck
deriving DecidableEq

/-- Modelled from the spec: the backend records the maintenance marker among
the health checks of this instance exactly while maintenance mode is enabled
(the Consul agent, an external collaborator, reports a check named
Service Maintenance Mode with the ServiceID of the instance while the
agent.service.maintenance flag is on). -/
def healthChecks (instanceId : String) (st : AgentState) : List HealthCheck :=
  (if st.maintenanceOn then
    [{ serviceID := instanceId, checkName := maintenanceName }]
  else []) ++ st.otherChecks

/-- ConsulServiceRegistry setStatus (lines 144 to 159): OUT_OF_SERVICE
enables maintenance mode for the instance, UP disables it, anything else
throws. -/
def setStatus (st : AgentState) (status : String) : Except String AgentState :=
  if status = outOfServiceStatus then
    Except.ok { st with maintenanceOn := true }
  else if status = upStatus then
    Except.ok { st with maintenanceOn := false }
  else
    Except.error (String.append ("Unknown status ") status)

/-- The check loop of getStatus: the first check whose ServiceID equals the
instance id and whose Name is the maintenance marker yields OUT_OF_SERVICE;
otherwise UP after the loop. -/
def getStatusScan (instanceId : String) : List HealthCheck → String
  | [] => upStatus
  | c :: rest =>
    if c.serviceID = instanceId then
      if c.checkName = maintenanceName then outOfServiceStatus
      else getStatusScan instanceId rest
    else getStatusScan instanceId rest

/-- ConsulServiceRegistry getStatus (lines 161 to 175): fetch the health
checks of the service and scan them. -/
def getStatus (instanceId : String) (st : AgentState) : String :=
  getStatusScan instanceId (healthChecks instanceId st)

/-! ## Provider wiring: getSharedProviderUtils -/

/-- Discovery options as supplied by the caller of getSharedProviderUtils:
the failFast property (none when the property is absent; a property set to
the undefined value is likewise modelled as absent) plus the remaining
properties, kept opaque. -/
structure DiscoveryOptions where
  failFast : Option Bool
  rest : List (String × String)
deriving DecidableEq

/-- The object spread used in the consul, etcd and zookeeper branches of
getSharedProviderUtils: failFast true first, then the spread of
options.discovery, so a caller-supplied failFast property overrides the
default; spreading an undefined discovery adds nothing. -/
def mergedDiscovery (d : Option DiscoveryOptions) : DiscoveryOptions :=
  match d with
  | none => { failFast := some true, rest := [] }
  | some dd => { failFast := some (dd.failFast.getD true), rest := dd.rest }

def consulDiscoverer : String := "consul"

def etcdDiscoverer : String := "etcd"

def zookeeperDiscoverer : String := "zookeeper"

def localDiscoverer : String := "local"

/-- getSharedProviderUtils (provider.util.ts lines 33 to 112), restricted to
the discovery value placed into the SERVICE_REGISTRY_CONFIG provider. The
consul, etcd and zookeeper branches each build the failFast-defaulted merge;
the local branch passes options.discovery through unchanged; any other
discoverer leaves the provider value as the empty object, whose discovery
property is absent. validateOptions is outside src and is modelled from the
spec as validation that leaves the configuration unchanged. -/
def providerDiscovery (discoverer : String) (d : Option DiscoveryOptions) :
    Option DiscoveryOptions :=
  if discoverer = consulDiscoverer then some (mergedDiscovery d)
  else if discoverer = etcdDiscoverer then some (mergedDiscovery d)
  else if discoverer = zookeeperDiscoverer then some (mergedDiscovery d)
  else if discoverer = localDiscoverer then d
  else none

/-! ## Concrete inputs used by counterexamples and witnesses -/

/-- A backend whose register call always fails. -/
def alwaysFalse : Nat → Bool := fun _ => false

/-- A backend whose register call fails on the first n attempts and succeeds
from attempt n on. -/
def failsThen (n : Nat) : Nat → Bool := fun k => decide (n ≤ k)

/-- Fail-fast configuration with heartbeat disabled. -/
def c1cfg : RegCfg :=
  { failFast := true, heartbeatEnabled := false, schedulerPresent := false,
    checkTtl := false }

/-- Retry configuration: failFast off, heartbeat enabled, scheduler present,
ttl check present. -/
def c5cfg : RegCfg :=
  { failFast := false, heartbeatEnabled := true, schedulerPresent := true,
    checkTtl := true }

/-- Options with heartbeat present (disabled) and fail-fast discovery. -/
def c3options : ConsulRegistryOptions :=
  { heartbeat := some { enabled := false },
    discovery := some { failFast := true } }

/-- A live context: consul client present, scheduler present. -/
def ctxLive : Ctx := { consulPresent := true, schedulerPresent := true }

def nameA : String := "a"

/-- An engine with the catalog watch running and one per-service watch for
the name a, as after init plus one catalog change event. -/
def c4engine : Engine :=
  (buildServiceStore ctxLive [nameA] (watchAll ctxLive engine0)).1

def sampleInstanceId : String := "i-1"

/-- An agent with maintenance off and one unrelated check of another
instance. -/
def c9agent : AgentState :=
  { maintenanceOn := false,
    otherChecks := [{ serviceID := "i-2", checkName := "Serf Health Status" }] }

/-- Caller-supplied discovery options that set failFast to false. -/
def c10d : Option DiscoveryOptions := some { failFast := some false, rest := [] }

/-! ## Helper lemmas -/

/-- With a backend that always fails, the attempt loop always settles the
promise: with the value the promise already held, or rejected if it was still
pending (the fail-fast reject and the exhaustion reject both produce
rejected). -/
theorem registerLoop_allFail (cfg : RegCfg) (b : Nat → Bool)
    (hb : ∀ k, b k = false) :
    ∀ (r : Nat) (s : RegSt) (settled : Option Settle),
      (registerLoop cfg b r s settled).2.1 =
        some (settled.getD Settle.rejected) := by
  intro r
  induction r with
  | zero =>
    intro s settled
    simp only [registerLoop, internalRegister, hb s.calls]
    cases settled <;> cases hcf : cfg.failFast <;> simp [settleFirst, hcf]
  | succ m ih =>
    intro s settled
    simp only [registerLoop, internalRegister, hb s.calls]
    cases settled <;> cases hcf : cfg.failFast <;> simp [settleFirst, hcf, ih]

/-- With a backend that fails on the first n attempts and then succeeds,
failFast off and all heartbeat conditions on, the loop resolves and performs
exactly one further scheduler enrollment, provided enough retries remain. -/
theorem registerLoop_failsThen (n : Nat) :
    ∀ (r c a : Nat), n ≤ c + r →
      (registerLoop c5cfg (failsThen n) r { calls := c, adds := a } none).2.1
          = some Settle.resolved ∧
      (registerLoop c5cfg (failsThen n) r { calls := c, adds := a } none).1.adds
          = a + 1 := by
  intro r
  induction r with
  | zero =>
    intro c a hle
    have hb : failsThen n c = true := by
      simp only [failsThen, decide_eq_true_eq]
      omega
    simp [registerLoop, internalRegister, hb, c5cfg, settleFirst]
  | succ m ih =>
    intro c a hle
    by_cases hnc : n ≤ c
    · have hb : failsThen n c = true := by
        simp only [failsThen, decide_eq_true_eq]
        exact hnc
      simp [registerLoop, internalRegister, hb, c5cfg, settleFirst]
    · have hb : failsThen n c = false := by
        simp only [failsThen, decide_eq_false_iff_not]
        omega
      have hrec := ih (c + 1) a (by omega)
      simp only [registerLoop, internalRegister, hb, c5cfg]
      simpa using hrec

theorem storeSetNames_append (l1 l2 : List Ev) :
    storeSetNames (l1 ++ l2) = storeSetNames l1 ++ storeSetNames l2 := by
  simp [storeSetNames]

theorem watchCreateNames_append (l1 l2 : List Ev) :
    watchCreateNames (l1 ++ l2) = watchCreateNames l1 ++ watchCreateNames l2 := by
  simp [watchCreateNames]

theorem storeSetNames_cons_storeSet (n : String) (l : List Ev) :
    storeSetNames (Ev.storeSet n :: l) = n :: storeSetNames l := by
  simp [storeSetNames]

theorem watchCreateNames_cons_storeSet (n : String) (l : List Ev) :
    watchCreateNames (Ev.storeSet n :: l) = watchCreateNames l := by
  simp [watchCreateNames]

theorem storeSetNames_watchEnds (l : List (String × Nat)) :
    storeSetNames (l.map (fun p => Ev.watchEnd p.2)) = [] := by
  induction l with
  | nil => simp [storeSetNames]
  | cons p rest ih => simp [storeSetNames]

theorem watchCreateNames_watchEnds (l : List (String × Nat)) :
    watchCreateNames (l.map (fun p => Ev.watchEnd p.2)) = [] := by
  induction l with
  | nil => simp [watchCreateNames]
  | cons p rest ih => simp [watchCreateNames]

/-- One watch call writes no store entry and creates exactly one watch, for
the requested name, when the consul client is present. -/
theorem watch_names (ctx : Ctx) (s : String) (e : Engine)
    (hc : ctx.consulPresent = true) :
    storeSetNames (watch ctx s e).2 = [] ∧
    watchCreateNames (watch ctx s e).2 = [s] := by
  cases hp : findProp s e.watchersProps with
  | none => simp [watch, hc, hp, storeSetNames, watchCreateNames]
  | some id => simp [watch, hc, hp, storeSetNames, watchCreateNames]

/-- The per-service loop of buildServiceStore writes the store and creates a
watch for exactly the names it is given, in order. -/
theorem buildLoop_names (ctx : Ctx) (hc : ctx.consulPresent = true) :
    ∀ (services : List String) (e : Engine),
      storeSetNames (buildLoop ctx services e).2 = services ∧
      watchCreateNames (buildLoop ctx services e).2 = services := by
  intro services
  induction services with
  | nil =>
    intro e
    simp [buildLoop, storeSetNames, watchCreateNames]
  | cons s rest ih =>
    intro e
    have hw := watch_names ctx s (setStore s e) hc
    have hr := ih (watch ctx s (setStore s e)).1
    simp only [buildLoop, storeSetNames_cons_storeSet,
      watchCreateNames_cons_storeSet, storeSetNames_append,
      watchCreateNames_append, hw.1, hw.2, hr.1, hr.2]
    simp

theorem up_ne_oos : ¬ (upStatus = outOfServiceStatus) := by decide

/-- If no check in the list is a maintenance marker for the instance, the
scan of getStatus reports UP. -/
theorem getStatusScan_none (id : String) :
    ∀ (l : List HealthCheck),
      (∀ c ∈ l, ¬(c.serviceID = id ∧ c.checkName = maintenanceName)) →
      getStatusScan id l = upStatus := by
  intro l
  induction l with
  | nil =>
    intro _
    simp [getStatusScan]
  | cons c rest ih =>
    intro h
    have hc := h c (List.mem_cons_self c rest)
    have hrest : ∀ x ∈ rest, ¬(x.serviceID = id ∧ x.checkName = maintenanceName) :=
      fun x hx => h x (List.mem_cons_of_mem c hx)
    by_cases h1 : c.serviceID = id
    · have h2 : ¬ c.checkName = maintenanceName := fun h2 => hc ⟨h1, h2⟩
      simp [getStatusScan, h1, h2, ih hrest]
    · simp [getStatusScan, h1, ih hrest]

/-! ## Claims -/

/-- C1: the claim says that with discovery.failFast true and a backend whose
register call always fails, register() rejects after exactly one register
attempt with no retry. The code does reject with the backend error, but the
fail-fast branch falls through to operation.retry (the reject is not followed
by a return), so the default policy still issues all retries: 11 backend
register calls are made, not 1. This evaluates the embedded code at that
failing input. -/
theorem c1_failfast_still_retries :
    (register c1cfg alwaysFalse).2.1 = some Settle.rejected ∧
    (register c1cfg alwaysFalse).1.calls = 11 ∧
    ¬ (register c1cfg alwaysFalse).1.calls = 1 := by decide

/-- C2: the claim says a tier-2 rebuild terminates every previously active
per-service watch before creating new ones, so at most one watch per name is
ever active. In the code this.watchers.forEach sees only Map entries while
watch() stores watchers as bracket-notation properties on the Map object, so
the rebuild terminates nothing: after two catalog change events both
reporting the single service a, two watches for a are active, and the second
rebuild emitted no watch-end event at all. -/
theorem c2_rebuild_leaks_watches :
    (activeFor nameA
      (watchAllChange ctxLive [nameA]
        (watchAllChange ctxLive [nameA] engine0).1).1).length = 2 ∧
    ((watchAllChange ctxLive [nameA]
        (watchAllChange ctxLive [nameA] engine0).1).2.filter isWatchEnd) = [] := by
  decide

/-- C3 counterexample: with heartbeat present, discovery.failFast true and a
backend whose register call always fails, the register promise rejects, yet
onModuleInit completes normally: no error escapes the hook, contradicting the
claim that the fail-fast registration error aborts startup. -/
theorem c3_error_does_not_escape_cex :
    (onModuleInit c3options alwaysFalse).regOutcome = some Settle.rejected ∧
    (onModuleInit c3options alwaysFalse).escaped = none := by decide

/-- C3 amended: if startup registration fails on the fail-fast path
(discovery.failFast true, backend always rejecting), onModuleInit catches the
error inside its try block and logs it; the error does not escape the hook,
so the owning process's startup proceeds rather than aborting. -/
theorem c3_failfast_error_is_caught (o : ConsulRegistryOptions) (b : Nat → Bool)
    (hb : HeartbeatOptions) (d : ConsulDiscoveryOptions)
    (hh : o.heartbeat = some hb) (hd : o.discovery = some d)
    (_hf : d.failFast = true) (hbfail : ∀ k, b k = false) :
    (onModuleInit o b).escaped = none ∧
    (onModuleInit o b).logged = some registrationFailedMsg ∧
    (onModuleInit o b).regOutcome = some Settle.rejected := by
  have hreg :
      (register
        { failFast := d.failFast, heartbeatEnabled := hb.enabled,
          schedulerPresent := hb.enabled, checkTtl := checkTtlPresent hb } b).2.1
        = some Settle.rejected := by
    have h2 := registerLoop_allFail
      { failFast := d.failFast, heartbeatEnabled := hb.enabled,
        schedulerPresent := hb.enabled, checkTtl := checkTtlPresent hb }
      b hbfail defaultRetries initRegSt none
    simpa [register] using h2
  simp [onModuleInit, init, hh, hd, hreg]

theorem c3_failfast_error_is_caught_witness :
    (onModuleInit c3options alwaysFalse).escaped = none ∧
    (onModuleInit c3options alwaysFalse).logged = some registrationFailedMsg ∧
    (onModuleInit c3options alwaysFalse).regOutcome = some Settle.rejected :=
  c3_failfast_error_is_caught c3options alwaysFalse
    { enabled := false } { failFast := true } rfl rfl rfl (fun _ => rfl)

/-- C4 counterexample: in a state with the catalog watch running and one
active per-service watch, onModuleDestroy emits only the scheduler removal
and the backend deregister call: no watch-end event precedes the deregister,
and both the per-service watch and the catalog watch are still active
afterwards, contradicting the claimed stop-watches-then-deregister order. -/
theorem c4_watches_not_stopped_cex :
    activeFor nameA c4engine = [1] ∧
    c4engine.catalogWatch = some 0 ∧
    (onModuleDestroy ctxLive c4engine).2 =
      [Ev.schedRemove, Ev.backendDeregister] ∧
    ((onModuleDestroy ctxLive c4engine).2.filter isWatchEnd) = [] ∧
    activeFor nameA (onModuleDestroy ctxLive c4engine).1 = [1] ∧
    (onModuleDestroy ctxLive c4engine).1.catalogWatch = some 0 := by decide

/-- C4 amended: on layer shutdown, onModuleDestroy only removes this
instance from the ttl scheduler (when one exists) and then issues the backend
deregister call; it stops no per-service watch and not the catalog watch
(the trace holds no watch-end event and the watch state is untouched), and
close() is a no-op, hence trivially safe to call multiple times. -/
theorem c4_shutdown_is_deregister_only (ctx : Ctx) (e : Engine) :
    (onModuleDestroy ctx e).2 =
      (if ctx.schedulerPresent then [Ev.schedRemove] else []) ++
        [Ev.backendDeregister] ∧
    (onModuleDestroy ctx e).1 = e ∧
    ((onModuleDestroy ctx e).2.filter isWatchEnd) = [] ∧
    close e = e := by
  cases hs : ctx.schedulerPresent <;>
    simp [onModuleDestroy, deregister, close, isWatchEnd, hs]

/-- C5: with a backend failing on the first n register attempts and then
succeeding, discovery.failFast false, heartbeat enabled with scheduler and
ttl check present, and a retry policy allowing r retries with n less than the
maximum attempt count r + 1 (that is n at most r), register() resolves and
the instance id is enrolled in the TtlScheduler exactly once. -/
theorem c5_register_retries_then_enrolls_once (n r : Nat) (h : n ≤ r) :
    (registerLoop c5cfg (failsThen n) r initRegSt none).2.1
        = some Settle.resolved ∧
    (registerLoop c5cfg (failsThen n) r initRegSt none).1.adds = 1 := by
  have hh := registerLoop_failsThen n r 0 0 (by omega)
  simpa [initRegSt] using hh

theorem c5_register_retries_then_enrolls_once_witness :
    2 ≤ 10 ∧
    ((registerLoop c5cfg (failsThen 2) 10 initRegSt none).2.1
        = some Settle.resolved ∧
     (registerLoop c5cfg (failsThen 2) 10 initRegSt none).1.adds = 1) :=
  ⟨by decide, c5_register_retries_then_enrolls_once 2 10 (by decide)⟩

/-- C6: scheduler enrollment is never speculative. In any single register
attempt, if the backend register call throws, the scheduler counters are left
unchanged and no enrollment event occurs; and whenever an enrollment event
occurs at all, the trace of the attempt is exactly a successful backend
register call followed by the enrollment, so TtlScheduler.add runs only after
the backend call returned successfully. -/
theorem c6_no_speculative_enrollment (cfg : RegCfg) (b : Nat → Bool) (s : RegSt) :
    ((internalRegister cfg b s).2.1 = false →
      (internalRegister cfg b s).1.adds = s.adds ∧
      RegEv.schedulerAdd ∉ (internalRegister cfg b s).2.2) ∧
    (RegEv.schedulerAdd ∈ (internalRegister cfg b s).2.2 →
      (internalRegister cfg b s).2.2 =
        [RegEv.backendRegister true, RegEv.schedulerAdd]) := by
  by_cases hb : b s.calls
  · by_cases hc : (cfg.heartbeatEnabled && cfg.schedulerPresent && cfg.checkTtl) = true
    · simp [internalRegister, hb, hc]
    · simp [internalRegister, hb, hc]
  · simp [internalRegister, hb]

theorem c6_no_speculative_enrollment_witness :
    ((internalRegister c5cfg alwaysFalse initRegSt).2.1 = false →
      (internalRegister c5cfg alwaysFalse initRegSt).1.adds = initRegSt.adds ∧
      RegEv.schedulerAdd ∉ (internalRegister c5cfg alwaysFalse initRegSt).2.2) ∧
    (RegEv.schedulerAdd ∈ (internalRegister c5cfg alwaysFalse initRegSt).2.2 →
      (internalRegister c5cfg alwaysFalse initRegSt).2.2 =
        [RegEv.backendRegister true, RegEv.schedulerAdd]) :=
  c6_no_speculative_enrollment c5cfg alwaysFalse initRegSt

/-- C7: whenever the heartbeat options or the discovery options are entirely
absent, init fails with the corresponding configuration error and performs no
side effect at all: in particular no registration is built and no watch is
started. -/
theorem c7_missing_options_cfg_error (o : ConsulRegistryOptions)
    (h : o.heartbeat = none ∨ o.discovery = none) :
    (init o = Except.error heartbeatRequiredMsg ∨
      init o = Except.error discoveryRequiredMsg) ∧
    initEvents o = [] := by
  rcases h with h1 | h2
  · simp [init, initEvents, h1]
  · cases hh : o.heartbeat with
    | none => simp [init, initEvents, hh]
    | some hb => simp [init, initEvents, hh, h2]

theorem c7_missing_options_cfg_error_witness :
    (({ heartbeat := none, discovery := none } : ConsulRegistryOptions).heartbeat
        = none ∨
      ({ heartbeat := none, discovery := none } : ConsulRegistryOptions).discovery
        = none) ∧
    ((init { heartbeat := none, discovery := none }
          = Except.error heartbeatRequiredMsg ∨
        init { heartbeat := none, discovery := none }
          = Except.error discoveryRequiredMsg) ∧
      initEvents { heartbeat := none, discovery := none } = []) :=
  ⟨Or.inl rfl,
    c7_missing_options_cfg_error { heartbeat := none, discovery := none }
      (Or.inl rfl)⟩

/-- C8: on every catalog-watch change event, the handler computes the keys of
the payload minus the backend pseudo-service consul, and the rebuild writes a
store entry and creates a per-service watch for exactly that list of names
(consul client present). -/
theorem c8_catalog_change_exact_names (ctx : Ctx) (keys : List String)
    (e : Engine) (hc : ctx.consulPresent = true) :
    storeSetNames (watchAllChange ctx keys e).2 =
      keys.filter (fun k => k != consulName) ∧
    watchCreateNames (watchAllChange ctx keys e).2 =
      keys.filter (fun k => k != consulName) := by
  constructor
  · simp only [watchAllChange, buildServiceStore, storeSetNames_append,
      storeSetNames_watchEnds, List.nil_append]
    exact (buildLoop_names ctx hc _ _).1
  · simp only [watchAllChange, buildServiceStore, watchCreateNames_append,
      watchCreateNames_watchEnds, List.nil_append]
    exact (buildLoop_names ctx hc _ _).2

theorem c8_catalog_change_exact_names_witness :
    ctxLive.consulPresent = true ∧
    (storeSetNames (watchAllChange ctxLive [nameA, consulName] engine0).2 =
        [nameA, consulName].filter (fun k => k != consulName) ∧
      watchCreateNames (watchAllChange ctxLive [nameA, consulName] engine0).2 =
        [nameA, consulName].filter (fun k => k != consulName)) :=
  ⟨rfl, c8_catalog_change_exact_names ctxLive [nameA, consulName] engine0 rfl⟩

/-- C9: status toggling round-trips. Provided the other checks of the service
contain no maintenance marker for this instance, setStatus OUT_OF_SERVICE
records the maintenance marker and getStatus then reports OUT_OF_SERVICE;
setStatus UP clears the marker and getStatus then reports UP. -/
theorem c9_status_roundtrip (id : String) (st : AgentState)
    (h : ∀ c ∈ st.otherChecks,
      ¬(c.serviceID = id ∧ c.checkName = maintenanceName)) :
    ∃ st1 st2,
      setStatus st outOfServiceStatus = Except.ok st1 ∧
      getStatus id st1 = outOfServiceStatus ∧
      setStatus st1 upStatus = Except.ok st2 ∧
      getStatus id st2 = upStatus := by
  refine ⟨{ st with maintenanceOn := true }, { st with maintenanceOn := false },
    ?_, ?_, ?_, ?_⟩
  · simp [setStatus]
  · simp [getStatus, healthChecks, getStatusScan]
  · simp [setStatus, up_ne_oos]
  · simp only [getStatus, healthChecks, if_neg, Bool.false_eq_true,
      List.nil_append]
    exact getStatusScan_none id st.otherChecks h

theorem c9_status_roundtrip_witness :
    (∀ c ∈ c9agent.otherChecks,
      ¬(c.serviceID = sampleInstanceId ∧ c.checkName = maintenanceName)) ∧
    (∃ st1 st2,
      setStatus c9agent outOfServiceStatus = Except.ok st1 ∧
      getStatus sampleInstanceId st1 = outOfServiceStatus ∧
      setStatus st1 upStatus = Except.ok st2 ∧
      getStatus sampleInstanceId st2 = upStatus) :=
  ⟨by decide, c9_status_roundtrip sampleInstanceId c9agent (by decide)⟩

/-- C10: for the consul, etcd and zookeeper discoverers the provider wiring
produces a discovery object whose failFast is the caller-supplied value when
the caller set one and true otherwise, with the remaining caller properties
passed through; for the local discoverer the discovery options are passed
through unchanged with no failFast default. -/
theorem c10_provider_failfast_default (discoverer : String)
    (d : Option DiscoveryOptions) :
    ((discoverer = consulDiscoverer ∨ discoverer = etcdDiscoverer ∨
        discoverer = zookeeperDiscoverer) →
      ∃ r, providerDiscovery discoverer d = some r ∧
        (∀ dd b, d = some dd → dd.failFast = some b → r.failFast = some b) ∧
        ((d = none ∨ ∃ dd, d = some dd ∧ dd.failFast = none) →
          r.failFast = some true) ∧
        r.rest = (match d with | none => [] | some dd => dd.rest)) ∧
    (discoverer = localDiscoverer → providerDiscovery discoverer d = d) := by
  have hrest : (mergedDiscovery d).rest =
      (match d with | none => [] | some dd => dd.rest) := by
    cases d <;> simp [mergedDiscovery]
  have hmain : ∀ dd b, d = some dd → dd.failFast = some b →
      (mergedDiscovery d).failFast = some b := by
    intro dd b hdd hb
    subst hdd
    simp [mergedDiscovery, hb]
  have hdef : (d = none ∨ ∃ dd, d = some dd ∧ dd.failFast = none) →
      (mergedDiscovery d).failFast = some true := by
    rintro (rfl | ⟨dd, rfl, hdd⟩)
    · simp [mergedDiscovery]
    · simp [mergedDiscovery, hdd]
  constructor
  · rintro (h | h | h) <;> subst h
    · refine ⟨mergedDiscovery d, ?_, hmain, hdef, hrest⟩
      simp [providerDiscovery]
    · refine ⟨mergedDiscovery d, ?_, hmain, hdef, hrest⟩
      simp [providerDiscovery, consulDiscoverer, etcdDiscoverer]
    · refine ⟨mergedDiscovery d, ?_, hmain, hdef, hrest⟩
      simp [providerDiscovery, consulDiscoverer, etcdDiscoverer,
        zookeeperDiscoverer]
  · intro h
    subst h
    simp [providerDiscovery, consulDiscoverer, etcdDiscoverer,
      zookeeperDiscoverer, localDiscoverer]

theorem c10_provider_failfast_default_witness :
    ((etcdDiscoverer = consulDiscoverer ∨ etcdDiscoverer = etcdDiscoverer ∨
        etcdDiscoverer = zookeeperDiscoverer) →
      ∃ r, providerDiscovery etcdDiscoverer c10d = some r ∧
        (∀ dd b, c10d = some dd → dd.failFast = some b → r.failFast = some b) ∧
        ((c10d = none ∨ ∃ dd, c10d = some dd ∧ dd.failFast = none) →
          r.failFast = some true) ∧
        r.rest = (match c10d with | none => [] | some dd => dd.rest)) ∧
    (etcdDiscoverer = localDiscoverer →
      providerDiscovery etcdDiscoverer c10d = c10d) :=
  c10_provider_failfast_default etcdDiscoverer c10d

end UltimateBackend
